import Mathlib

/-!
Verification of the `@janiscommerce/microservice-call` library

A shallow embedding, in Lean 4, of the core logic of the
`janis-commerce/microservice-call` client library:

* the call façade (`call` / `safeCall`, `src/lib/ms-call.js` and the
  Discovery-based `MicroServiceCall` class),
* the retry classifier `shouldRetry`,
* the pagination aggregators (`list` / `listIterate` / `safeList`, in both
  the short-page variant and the total-count-header variant),
* the endpoint resolvers and their process-wide caches
  (`src/lib/discovery.js`, `src/lib/endpoint-fetcher.js`, and the
  router-fetcher based `_getEndpointData`),
* path-parameter substitution (`_getUrlWithEndpointParameters`), and
* verb-based request-data placement (`prepareData` / `_makeRequest`).

JavaScript values that matter to the embedded logic (response bodies,
header values) are modelled by the inductive `JsValue`; JS truthiness and
the relevant pieces of `JSON.stringify` / template-string coercion are
modelled explicitly.  Asynchronous collaborators (the discovery lambda,
axios, the HTTP transport) appear as explicit oracle arguments of type
`Except`/functions, so a whole call is a pure function of its oracles.
-/

namespace MicroserviceCall

/-- A JavaScript (JSON-like) runtime value, as far as the library's logic
inspects one: response bodies, header values, discovery payload fields.
`undefined` (an absent value) is represented by `Option.none` at use sites. -/
inductive JsValue where
  | null
  | bool (b : Bool)
  | num (n : Int)
  | str (s : String)
  | arr (elems : List JsValue)
  | obj (fields : List (String × JsValue))

/-- JS truthiness of a value (`Boolean(v)`).  `null`, `false`, `0` and `""`
are falsy; every object and array is truthy. -/
def truthy : JsValue → Bool
  | .null => false
  | .bool b => b
  | .num n => n != 0
  | .str s => s != ""
  | .arr _ => true
  | .obj _ => true

/-- Property access `v.key` on a JS value: defined (`some`) only on objects
having the key, `undefined` (`none`) otherwise. -/
def getField : JsValue → String → Option JsValue
  | .obj fields, key => (fields.find? fun kv => kv.1 == key).map (·.2)
  | _, _ => none

mutual
/-- The builtin `JSON.stringify(v)`, restricted to the value shapes the library's claims
exercise (string escaping inside string values is not modelled: no claim
input contains characters that JSON escapes). -/
def jsonStringify : JsValue → String
  | .null => "null"
  | .bool true => "true"
  | .bool false => "false"
  | .num n => toString n
  | .str s => "\"" ++ s ++ "\""
  | .arr elems => "[" ++ jsonStringifyElems elems ++ "]"
  | .obj fields => "\x7b" ++ jsonStringifyFields fields ++ "\x7d"

/-- Comma-separated stringification of array elements. -/
def jsonStringifyElems : List JsValue → String
  | [] => ""
  | [v] => jsonStringify v
  | v :: rest => jsonStringify v ++ "," ++ jsonStringifyElems rest

/-- Comma-separated stringification of object fields. -/
def jsonStringifyFields : List (String × JsValue) → String
  | [] => ""
  | [(k, v)] => "\"" ++ k ++ "\":" ++ jsonStringify v
  | (k, v) :: rest => "\"" ++ k ++ "\":" ++ jsonStringify v ++ "," ++ jsonStringifyFields rest
end

mutual
/-- JS template-string coercion `` `${v}` `` of a value: strings stay as-is,
numbers print, arrays join with commas, plain objects print as
`[object Object]`. -/
def jsTemplateString : JsValue → String
  | .null => "null"
  | .bool true => "true"
  | .bool false => "false"
  | .num n => toString n
  | .str s => s
  | .arr elems => jsTemplateJoin elems
  | .obj _ => "[object Object]"

/-- Comma join of array elements under template coercion (`null` elements
join as the empty string, as in JS `String([null, 1]) = ",1"`). -/
def jsTemplateJoin : List JsValue → String
  | [] => ""
  | [.null] => ""
  | [v] => jsTemplateString v
  | .null :: rest => "," ++ jsTemplateJoin rest
  | v :: rest => jsTemplateString v ++ "," ++ jsTemplateJoin rest
end

/-- Error codes of `MicroServiceCallError`, from `src/lib/ms-call-error.js`. -/
def codeINVALID_DISCOVERY_HOST_SETTING : Nat := 1

/-- The `ENDPOINT_NOT_FOUND` error code (`src/lib/ms-call-error.js`). -/
def codeENDPOINT_NOT_FOUND : Nat := 2

/-- The `ENDPOINT_REQUEST_FAILED` error code (`src/lib/ms-call-error.js`). -/
def codeENDPOINT_REQUEST_FAILED : Nat := 3

/-- The `MICROSERVICE_FAILED` error code (`src/lib/ms-call-error.js`). -/
def codeMICROSERVICE_FAILED : Nat := 4

/-- The `DISCOVERY_ERROR` error code used by `src/lib/discovery.js` (the error
class file defining its numeric value is not part of the sources; the value
is symbolic and nothing below depends on it). -/
def codeDISCOVERY_ERROR : Nat := 5

/-- The `MicroServiceCallError` exception, as the library constructs it:
a human message, a numeric classification code, and an optional HTTP
status code (`none` when the constructor received no third argument). -/
structure MicroServiceCallError where
  message : String
  code : Nat
  statusCode : Option Nat := none
deriving DecidableEq

/-- A normalized response `{headers, statusCode, statusMessage, body}` as
returned by `_makeRequest` on any completed HTTP exchange. -/
structure RequestResponse where
  headers : List (String × JsValue)
  statusCode : Nat
  statusMessage : String
  body : JsValue

/-- An endpoint descriptor `{endpoint, httpMethod}` as resolved by
`Discovery.getEndpoint`. -/
structure Endpoint where
  endpoint : String
  httpMethod : String
deriving DecidableEq

/-- The message extraction of `call` on a failing response, from
`src/lib/ms-call.js` line 50 (identically in the Discovery-based class):
`(response.body && (response.body.message || JSON.stringify(response.body))) || 'No response body'`. -/
def callFailureMessage (body : JsValue) : String :=
  if truthy body then
    match getField body "message" with
    | some m => if truthy m then jsTemplateString m else jsonStringify body
    | none => jsonStringify body
  else "No response body"

/-- The `MicroServiceCallError` thrown by `call` when a completed response
has `statusCode >= 400` (`src/lib/ms-call.js` lines 48-55). -/
def microserviceFailedError (statusCode : Nat) (body : JsValue) : MicroServiceCallError :=
  { message := "Microservice failed (" ++ toString statusCode ++ "): " ++ callFailureMessage body
    code := codeMICROSERVICE_FAILED
    statusCode := some statusCode }

/-- The status dispatch of `call` on a completed exchange: throw on
`statusCode >= 400`, return the response unchanged otherwise. -/
def callResult (response : RequestResponse) : Except MicroServiceCallError RequestResponse :=
  if 400 ≤ response.statusCode then
    .error (microserviceFailedError response.statusCode response.body)
  else
    .ok response

/-- The façade `call(service, namespace, method, ...)`: resolve the endpoint, perform
the exchange, then dispatch on the status code.  Resolution and transport
are oracles: `resolved` is the outcome of the endpoint resolution and
`transport` the outcome of `_makeRequest` (an `Except.error` models the
transport itself throwing before any response was received). -/
def call (resolved : Except MicroServiceCallError Endpoint)
    (transport : Endpoint → Except MicroServiceCallError RequestResponse) :
    Except MicroServiceCallError RequestResponse :=
  match resolved with
  | .error e => .error e
  | .ok ep =>
    match transport ep with
    | .error e => .error e
    | .ok response => callResult response

/-- The façade `safeCall(service, namespace, method, ...)`: the same pipeline but the
completed response is returned with no status dispatch
(`src/lib/ms-call.js` lines 71-73). -/
def safeCall (resolved : Except MicroServiceCallError Endpoint)
    (transport : Endpoint → Except MicroServiceCallError RequestResponse) :
    Except MicroServiceCallError RequestResponse :=
  match resolved with
  | .error e => .error e
  | .ok ep => transport ep

/-! Retry classifier (`shouldRetry`) -/

/-- The fixed exclusion list `NoRetryErrorMessages` of known-permanent
500-class messages (`src/unnamed/part_002` lines 10-13). -/
def NoRetryErrorMessages : List String :=
  [": Argument passed in must be a single String of 12 bytes or a string of 24 hex characters",
   ": Invalid client"]

/-- The split `error.message.split(/[()]/g)`: split a string at every `(` or `)`,
separators removed, empty segments kept. -/
def splitParens (s : String) : List String :=
  (s.data.splitOnP fun c => c == '(' || c == ')').map fun cs => String.mk cs

/-- The helper `_getMessageFromError`: take the third component of the paren-split of
the error's message (`undefined`, i.e. `none`, when the split is shorter). -/
def getMessageFromError (e : MicroServiceCallError) : Option String :=
  (splitParens e.message).get? 2

/-- The helper `_getMessageFromResponse`: `": " + body.message` when the body and its
`message` field are truthy, the empty string otherwise. -/
def getMessageFromResponse (body : JsValue) : String :=
  if truthy body then
    match getField body "message" with
    | some m => if truthy m then ": " ++ jsTemplateString m else ""
    | none => ""
  else ""

/-- An argument of `shouldRetry`: either a `MicroServiceCallError` instance
or a raw response-like object (whose `statusCode` field may be absent). -/
inductive RetryOutcome where
  | err (e : MicroServiceCallError)
  | resp (statusCode : Option Nat) (body : JsValue)

/-- The `statusCode` field of a retry outcome (`none` = absent). -/
def RetryOutcome.statusCodeField : RetryOutcome → Option Nat
  | .err e => e.statusCode
  | .resp sc _ => sc

/-- The diagnostic message `shouldRetry` extracts, by instance check:
parsed out of an error's formatted message, or taken (with separator
prefix) from a raw response's `body.message`. -/
def RetryOutcome.extractedMessage : RetryOutcome → Option String
  | .err e => getMessageFromError e
  | .resp _ body => some (getMessageFromResponse body)

/-- The classifier `shouldRetry(response = {})` (`src/unnamed/part_002` lines 702-712):
`true` when `statusCode` is JS-falsy (absent or `0`); otherwise
`statusCode >= 500 && !NoRetryErrorMessages.includes(message)`
(`includes` of an `undefined` message is `false`). -/
def shouldRetry (o : RetryOutcome) : Bool :=
  match o.statusCodeField with
  | none => true
  | some sc =>
    if sc = 0 then true
    else
      let message := o.extractedMessage
      500 ≤ sc && !(match message with
        | some m => NoRetryErrorMessages.contains m
        | none => false)

/-! Pagination aggregators -/

/-- First-match association lookup, the embedding of a JS object used as a
string-keyed map (updates are modelled by prepending, so the most recent
write is found first). -/
def assocFind {α : Type} (entries : List (String × α)) (key : String) : Option α :=
  (entries.find? fun kv => kv.1 == key).map (·.2)

/-- A completed response of a page call.  Its body is a JS array of items
(the `list` aggregators spread it: `body.push(...response.body)`). -/
structure ListResponse where
  headers : List (String × JsValue)
  statusCode : Nat
  statusMessage : String
  body : List JsValue

/-- View a page response as a general response (body wrapped as a JS array),
to feed it through `call`'s status dispatch. -/
def ListResponse.toRequestResponse (r : ListResponse) : RequestResponse :=
  { headers := r.headers, statusCode := r.statusCode
    statusMessage := r.statusMessage, body := .arr r.body }

/-- The non-safe page call inside the aggregation loops: `call` throws the
formatted error exactly when the page's `statusCode >= 400`, and returns the
page unchanged otherwise. -/
def callPage (r : ListResponse) : Except MicroServiceCallError ListResponse :=
  if 400 ≤ r.statusCode then
    .error (microserviceFailedError r.statusCode (.arr r.body))
  else
    .ok r

/-- The `DEFAULT_PAGE_SIZE` of the Discovery-based class (`src/unnamed/part_002`
line 402). -/
def DEFAULT_PAGE_SIZE : Nat := 60

/-- The `DEFAULT_LIST_PAGE_SIZE` of `src/lib/ms-call.js` line 9. -/
def DEFAULT_LIST_PAGE_SIZE : Nat := 1000

/-- The recursion `listIterate` (`src/unnamed/part_002` lines 655-683), short-page
termination strategy.  `fetch page` is the oracle giving the completed
exchange of the page call with `x-janis-page = page`; in non-safe mode the
page goes through `call`'s status dispatch (a thrown error aborts the
whole aggregation), in safe mode through `safeCall` (returned unchanged).
In the source `lastResponse` always equals the current `response` when the
terminal page is reached, so the terminal return `{...lastResponse, body: items}`
is embedded as the current response with its body replaced.  The `Nat`
paired with the result counts the page calls performed; `fuel` bounds the
recursion depth (`none` = the source would still be iterating). -/
def listIterate (fetch : Nat → ListResponse) (makeSafeCall : Bool) (pageSize : Nat) :
    Nat → List JsValue → Nat → Option (Except MicroServiceCallError (ListResponse × Nat))
  | _page, _items, 0 => none
  | page, items, fuel + 1 =>
    match (if makeSafeCall then .ok (fetch page) else callPage (fetch page) :
        Except MicroServiceCallError ListResponse) with
    | .error e => some (.error e)
    | .ok response =>
      if makeSafeCall ∧ 400 ≤ response.statusCode then
        some (.ok (response, 1))
      else
        let items := items ++ response.body
        if response.body.length = pageSize then
          match listIterate fetch makeSafeCall pageSize (page + 1) items fuel with
          | some (.ok (r, n)) => some (.ok (r, n + 1))
          | other => other
        else
          some (.ok ({ response with body := items }, 1))

/-- The aggregator `list` (`src/unnamed/part_002` lines 648-653): default the page size
(`pageSize || DEFAULT_PAGE_SIZE`, so a falsy `0` also defaults) and start
`listIterate` at page 1 with an empty accumulator. -/
def list (fetch : Nat → ListResponse) (makeSafeCall : Bool) (pageSize : Nat) (fuel : Nat) :
    Option (Except MicroServiceCallError (ListResponse × Nat)) :=
  let pageSize := if pageSize = 0 then DEFAULT_PAGE_SIZE else pageSize
  listIterate fetch makeSafeCall pageSize 1 [] fuel

/-- The aggregator `safeList` (`src/unnamed/part_002` lines 685-694): `list` with
`makeSafeCall` set. -/
def safeList (fetch : Nat → ListResponse) (pageSize : Nat) (fuel : Nat) :
    Option (Except MicroServiceCallError (ListResponse × Nat)) :=
  list fetch true pageSize fuel

/-- Numeric coercion of an optional header value, as JS applies it inside
`totals - body.length` (`undefined` or a non-numeric value behaves as `NaN`,
whose comparisons are all false). -/
def jsHeaderNumber : Option JsValue → Option Int
  | some (.num n) => some n
  | some (.str s) => s.toInt?
  | _ => none

/-- The running total `response.headers['x-janis-total']` read by the
total-count list loop of `src/lib/ms-call.js`. -/
def xJanisTotal (r : ListResponse) : Option Int :=
  jsHeaderNumber (assocFind r.headers "x-janis-total")

/-- The continuation condition `totals - body.length > 0` of the total-count
list loop, evaluated on the page response and the accumulated body
(false when the total header is absent or non-numeric, since `NaN > 0` is
false). -/
def msListMore (response : ListResponse) (accumulated : List JsValue) : Bool :=
  match xJanisTotal response with
  | some totals => 0 < totals - (accumulated.length : Int)
  | none => false

/-- The do/while body of `MsCall.list` (`src/lib/ms-call.js` lines 85-114),
total-count termination strategy: keep calling while
`totals - body.length > 0` (false when the total header is absent or
non-numeric, since `NaN > 0` is false); on exit return the last page's
response with the accumulated body. -/
def msListLoop (fetch : Nat → ListResponse) (useSafeMode : Bool) :
    Nat → List JsValue → Nat → Option (Except MicroServiceCallError (ListResponse × Nat))
  | _page, _body, 0 => none
  | page, body, fuel + 1 =>
    match (if useSafeMode then .ok (fetch page) else callPage (fetch page) :
        Except MicroServiceCallError ListResponse) with
    | .error e => some (.error e)
    | .ok response =>
      let body := body ++ response.body
      if msListMore response body then
        match msListLoop fetch useSafeMode (page + 1) body fuel with
        | some (.ok (r, n)) => some (.ok (r, n + 1))
        | other => other
      else
        some (.ok ({ response with body := body }, 1))

/-- The aggregator `MsCall.list(service, namespace, requestData, endpointParameters,
pageSize, useSafeMode = false)`: start the total-count loop at page 1 with
an empty accumulator. -/
def msList (fetch : Nat → ListResponse) (useSafeMode : Bool) (fuel : Nat) :
    Option (Except MicroServiceCallError (ListResponse × Nat)) :=
  msListLoop fetch useSafeMode 1 [] fuel

/-- The bodies of `n` consecutive pages starting at `page`, concatenated in
arrival order. -/
def pagesBodies (fetch : Nat → ListResponse) : Nat → Nat → List JsValue
  | _page, 0 => []
  | page, n + 1 => (fetch page).body ++ pagesBodies fetch (page + 1) n

/-! Endpoint resolvers and their caches -/

/-- The payload returned by the `discovery` lambda
(`Invoker.serviceCall('discovery', 'GetEndpoint', ...)`); `none` models an
absent or JS-falsy field, which is how the source tests each of them. -/
structure DiscoveryPayload where
  baseUrl : Option String
  path : Option String
  method : Option String
  errorMessage : Option String
deriving DecidableEq

/-- The full result of the discovery invocation: payload plus the
`functionError` flag of the lambda invoker. -/
structure ServiceCallResult where
  payload : DiscoveryPayload
  functionError : Option String
deriving DecidableEq

/-- One resolution attempt of `Discovery.getEndpoint`: the (service,
namespace, method) triple and the outcome of the discovery invocation
(`Except.error` = the awaited invoker call itself rejected). -/
structure Attempt where
  invoke : Except MicroServiceCallError ServiceCallResult
  service : String
  nspace : String
  method : String

/-- JS `a || b` on two optional (absent-or-truthy) strings. -/
def jsOr (a b : Option String) : Option String :=
  match a with
  | some x => some x
  | none => b

/-- The cache key of `Discovery.getEndpoint`
(`src/lib/discovery.js` line 12): `` `${service}.${namespace}.${method}` ``. -/
def Discovery.cacheKey (service nspace method : String) : String :=
  service ++ "." ++ nspace ++ "." ++ method

/-- The cache of `src/lib/discovery.js`, keyed by composite string. -/
abbrev DiscoveryCache := List (String × Endpoint)

/-- The cache-independent part of `Discovery.getEndpoint`
(`src/lib/discovery.js` lines 16-33): propagate an invoker rejection,
throw `DISCOVERY_ERROR` on `errorMessage || functionError`, throw
`DISCOVERY_ERROR` when base url, path or method is missing, and otherwise
build the descriptor `{endpoint: baseUrl + path, httpMethod}`. -/
def Discovery.resolveOnce (att : Attempt) : Except MicroServiceCallError Endpoint :=
  match att.invoke with
  | .error e => .error e
  | .ok res =>
    match jsOr res.payload.errorMessage res.functionError with
    | some errorMsg =>
      .error { message := "Service Discovery fails getting endpoint. Error: " ++ errorMsg
               code := codeDISCOVERY_ERROR }
    | none =>
      match res.payload.baseUrl, res.payload.path, res.payload.method with
      | some baseUrl, some path, some httpMethod =>
        .ok { endpoint := baseUrl ++ path, httpMethod := httpMethod }
      | _, _, _ =>
        .error { message := "Could not get base url, path or method.", code := codeDISCOVERY_ERROR }

/-- The resolver `Discovery.getEndpoint` (`src/lib/discovery.js` lines 10-39): on a cache
hit return the cached descriptor without invoking discovery; on a miss run
the discovery invocation and cache the descriptor only after it succeeded
completely (every failure path throws before the cache write).  The `Bool`
reports whether the discovery invocation was performed. -/
def Discovery.getEndpoint (att : Attempt) (cache : DiscoveryCache) :
    Except MicroServiceCallError Endpoint × DiscoveryCache × Bool :=
  let cacheKey := Discovery.cacheKey att.service att.nspace att.method
  match assocFind cache cacheKey with
  | some entry => (.ok entry, cache, false)
  | none =>
    match Discovery.resolveOnce att with
    | .error e => (.error e, cache, true)
    | .ok entry => (.ok entry, (cacheKey, entry) :: cache, true)

/-- A sequence of `Discovery.getEndpoint` attempts, threading the
process-wide cache. -/
def Discovery.runAttempts (cache : DiscoveryCache) : List Attempt → DiscoveryCache
  | [] => cache
  | att :: rest => Discovery.runAttempts (Discovery.getEndpoint att cache).2.1 rest

/-- One resolution attempt of `EndpointFetcher.get`: the triple plus the
outcome of the axios discovery request (`Except.error` = the request
itself threw; `ok (status, data)` = a completed HTTP exchange). -/
structure FetchAttempt where
  axiosResult : Except String (Nat × JsValue)
  service : String
  nspace : String
  method : String

/-- The cache key of `EndpointFetcher.get`
(`src/lib/endpoint-fetcher.js` line 35): `` `${service}-${namespace}-${method}` ``. -/
def EndpointFetcher.cacheKey (service nspace method : String) : String :=
  service ++ "-" ++ nspace ++ "-" ++ method

/-- The fetcher `EndpointFetcher.fetch` (`src/lib/endpoint-fetcher.js` lines 43-66):
wrap a transport throw as `ENDPOINT_REQUEST_FAILED`, turn a completed
response with status `>= 400` into `ENDPOINT_NOT_FOUND`, and return the
response data otherwise. -/
def EndpointFetcher.fetch (att : FetchAttempt) : Except MicroServiceCallError JsValue :=
  match att.axiosResult with
  | .error err => .error { message := err, code := codeENDPOINT_REQUEST_FAILED }
  | .ok (status, data) =>
    if 400 ≤ status then
      .error { message := "Endpoint not found: " ++ att.service ++ " - " ++ att.nspace
                            ++ " - " ++ att.method
               code := codeENDPOINT_NOT_FOUND }
    else
      .ok data

/-- The resolver `EndpointFetcher.get` (`src/lib/endpoint-fetcher.js` lines 30-41):
`if(!this.cache[key]) this.cache[key] = await this.fetch(...)` — the
fetch is awaited before the cache write, so a failed fetch throws and
leaves the cache untouched; a cached falsy value is refetched.  The `Bool`
reports whether `fetch` was performed. -/
def EndpointFetcher.get (att : FetchAttempt) (cache : List (String × JsValue)) :
    Except MicroServiceCallError JsValue × List (String × JsValue) × Bool :=
  let key := EndpointFetcher.cacheKey att.service att.nspace att.method
  match assocFind cache key with
  | some v =>
    if truthy v then (.ok v, cache, false)
    else
      match EndpointFetcher.fetch att with
      | .error e => (.error e, cache, true)
      | .ok data => (.ok data, (key, data) :: cache, true)
  | none =>
    match EndpointFetcher.fetch att with
    | .error e => (.error e, cache, true)
    | .ok data => (.ok data, (key, data) :: cache, true)

/-- The resolver `_getEndpointData` of the router-fetcher based class
(`src/unnamed/part_002` lines 139-147): the promise returned by
`routerFetcher.getEndpoint` is stored in the cache synchronously, before it
settles, so its eventual outcome — success or failure alike — is what the
cache holds for that key; a later call finds the (always truthy) promise
and returns it without contacting the router again.  The cache therefore
maps keys to settled outcomes, and the `Bool` reports whether the router
was contacted. -/
def getEndpointData (routerFetcherResult : Except MicroServiceCallError Endpoint)
    (cache : List (String × Except MicroServiceCallError Endpoint))
    (service nspace method : String) :
    Except MicroServiceCallError Endpoint
      × List (String × Except MicroServiceCallError Endpoint) × Bool :=
  let cacheKey := service ++ "-" ++ nspace ++ "-" ++ method
  match assocFind cache cacheKey with
  | some v => (v, cache, false)
  | none => (routerFetcherResult, (cacheKey, routerFetcherResult) :: cache, true)

/-! Counting a double invocation of `call` (cache-hit semantics) -/

/-- The observable trace of two consecutive `call` invocations: both
outcomes, the final resolver cache, and how many discovery invocations and
remote invocations were performed in total. -/
structure TwoCallTrace where
  first : Except MicroServiceCallError RequestResponse
  second : Except MicroServiceCallError RequestResponse
  finalCache : DiscoveryCache
  discoveryInvocations : Nat
  remoteInvocations : Nat

/-- One `call` through `Discovery.getEndpoint` with explicit cache state,
counting effects: a discovery invocation happens exactly on a cache miss,
and a remote invocation happens exactly when resolution succeeded (the
transport is invoked whether or not the exchange then completes). -/
def callCounted (att : Attempt)
    (transport : Endpoint → Except MicroServiceCallError RequestResponse)
    (cache : DiscoveryCache) :
    Except MicroServiceCallError RequestResponse × DiscoveryCache × Nat × Nat :=
  match Discovery.getEndpoint att cache with
  | (.error e, cache, looked) => (.error e, cache, if looked then 1 else 0, 0)
  | (.ok ep, cache, looked) =>
    match transport ep with
    | .error e => (.error e, cache, if looked then 1 else 0, 1)
    | .ok response => (callResult response, cache, if looked then 1 else 0, 1)

/-- Two consecutive `call` invocations threading the process-wide cache. -/
def callTwice (att₁ att₂ : Attempt)
    (tr₁ tr₂ : Endpoint → Except MicroServiceCallError RequestResponse)
    (cache : DiscoveryCache) : TwoCallTrace :=
  let (o₁, cache₁, l₁, r₁) := callCounted att₁ tr₁ cache
  let (o₂, cache₂, l₂, r₂) := callCounted att₂ tr₂ cache₁
  { first := o₁, second := o₂, finalCache := cache₂
    discoveryInvocations := l₁ + l₂, remoteInvocations := r₁ + r₂ }

/-! Path-parameter substitution -/

/-- JS `String.prototype.replace` with a string pattern: replace the first
occurrence of `pat` only (replacement-pattern characters such as `$&` are
not modelled; no source call site uses them). -/
def listReplaceFirst (pat rep : List Char) : List Char → List Char
  | [] => if pat.isPrefixOf ([] : List Char) then rep else []
  | c :: rest =>
    if pat.isPrefixOf (c :: rest) then rep ++ (c :: rest).drop pat.length
    else c :: listReplaceFirst pat rep rest

/-- String wrapper of `listReplaceFirst`. -/
def replaceFirst (s pat rep : String) : String :=
  String.mk (listReplaceFirst pat.data rep.data s.data)

/-- The substitution `_getUrlWithEndpointParameters` of the Discovery-based class
(`src/unnamed/part_002` lines 526-532): fold over the parameter keys,
replacing the first occurrence of the placeholder `{key}` in the
accumulated endpoint by the string-coerced value. -/
def getUrlWithEndpointParameters (endpoint : String)
    (endpointParameters : List (String × JsValue)) : String :=
  endpointParameters.foldl
    (fun endpointWithParameters kv =>
      replaceFirst endpointWithParameters ("\x7b" ++ kv.1 ++ "\x7d") (jsTemplateString kv.2))
    endpoint

/-- The substitution `_getUrlWithEndpointParameters` of `src/lib/microservice-call.js`
lines 90-94 (also lines 318-322): the reduce callback replaces on the
original `endpoint` instead of the accumulator `acum`, so each iteration
discards all previous substitutions and the fold's value is the original
endpoint with only the last parameter substituted. -/
def getUrlWithEndpointParametersLegacy (endpoint : String)
    (endpointParameters : List (String × JsValue)) : String :=
  endpointParameters.foldl
    (fun _acum kv =>
      replaceFirst endpoint ("\x7b" ++ kv.1 ++ "\x7d") (jsTemplateString kv.2))
    endpoint

/-! Verb-based request-data placement -/

/-- The coercion `httpMethod.toUpperCase()` (ASCII, as every verb in play is
ASCII), computed characterwise on the underlying data. -/
def jsToUpperCase (s : String) : String := String.mk (s.data.map Char.toUpper)

/-- The dispatch `MsCall.prepareData` (`src/lib/ms-call.js` lines 153-165), the same
dispatch `_makeRequest` performs inline: GET/DELETE place the request data
as the query, POST/PUT/PATCH as the body, anything else leaves both
`undefined`. -/
def prepareData (method : String) (requestData : JsValue) :
    Option JsValue × Option JsValue :=
  let query := if ["GET", "DELETE"].contains (jsToUpperCase method) then some requestData
    else none
  let body := if ["POST", "PUT", "PATCH"].contains (jsToUpperCase method) then some requestData
    else none
  (query, body)

/-- The request record handed to `axios.request` by `_makeRequest`
(`src/unnamed/part_002` lines 559-573), restricted to the fields the
claims inspect (url, query params, body data, verb). -/
structure AxiosRequest where
  url : String
  params : Option JsValue
  data : Option JsValue
  method : String

/-- The request `_makeRequest` builds: path parameters substituted into the
url, request data placed by verb. -/
def makeRequestConfig (apiEndpoint httpMethod : String) (requestData : JsValue)
    (endpointParameters : List (String × JsValue)) : AxiosRequest :=
  let (qs, requestBody) := prepareData httpMethod requestData
  { url := getUrlWithEndpointParameters apiEndpoint endpointParameters
    params := qs
    data := requestBody
    method := httpMethod }

/-- The request issuer `_makeRequest` with the transport as an oracle: the request is always
issued, and the completed exchange is returned as the normalized response. -/
def makeRequest (transport : AxiosRequest → RequestResponse)
    (apiEndpoint httpMethod : String) (requestData : JsValue)
    (endpointParameters : List (String × JsValue)) : RequestResponse :=
  transport (makeRequestConfig apiEndpoint httpMethod requestData endpointParameters)

/-! Theorems about the call façade (claims on `call` / `safeCall`) -/

/-- A value having a `message` field is an object, hence truthy. -/
theorem truthy_of_getField_some {v : JsValue} {k : String} {m : JsValue}
    (h : getField v k = some m) : truthy v = true := by
  cases v <;> simp_all [getField, truthy]

/-- C1 (amended).  For every invocation of `call` whose resolution and
transport complete with a response `r`: if `r.statusCode < 400` the response
is returned unchanged; if `r.statusCode ≥ 400`, `call` raises a
`MicroServiceCallError` with code `MICROSERVICE_FAILED` carrying the
response's status code, whose message is
`"Microservice failed (<statusCode>): <X>"` where `X` is the string-coerced
`body.message` when the body is truthy with a truthy `message` field, else
the JSON-stringified body whenever the body is truthy (including non-empty
strings and empty objects or arrays), else the fixed string
`"No response body"` when the body is falsy. -/
theorem call_status_dispatch
    (resolved : Except MicroServiceCallError Endpoint)
    (transport : Endpoint → Except MicroServiceCallError RequestResponse)
    (ep : Endpoint) (r : RequestResponse)
    (hres : resolved = .ok ep) (htr : transport ep = .ok r) :
    (r.statusCode < 400 → call resolved transport = .ok r) ∧
    (400 ≤ r.statusCode →
      call resolved transport = .error
        { message := "Microservice failed (" ++ toString r.statusCode ++ "): "
            ++ callFailureMessage r.body
          code := codeMICROSERVICE_FAILED
          statusCode := some r.statusCode } ∧
      (truthy r.body = false → callFailureMessage r.body = "No response body") ∧
      (∀ m, getField r.body "message" = some m → truthy m = true →
          callFailureMessage r.body = jsTemplateString m) ∧
      (∀ m, getField r.body "message" = some m → truthy m = false →
          callFailureMessage r.body = jsonStringify r.body) ∧
      (truthy r.body = true → getField r.body "message" = none →
          callFailureMessage r.body = jsonStringify r.body)) := by
  subst hres
  have hcall : call (.ok ep) transport = callResult r := by
    simp [call, htr]
  constructor
  · intro hlt
    rw [hcall]
    simp [callResult, Nat.not_le.mpr hlt]
  · intro hge
    refine ⟨?_, ?_, ?_, ?_, ?_⟩
    · rw [hcall]
      simp [callResult, hge, microserviceFailedError]
    · intro hf
      simp [callFailureMessage, hf]
    · intro m hm htm
      simp [callFailureMessage, truthy_of_getField_some hm, hm, htm]
    · intro m hm htm
      simp [callFailureMessage, truthy_of_getField_some hm, hm, htm]
    · intro hb hm
      simp [callFailureMessage, hb, hm]

/-- C1 witness: a 200 response is passed through unchanged, and a 500
response with body `{message: "some error"}` raises the formatted error. -/
theorem call_status_dispatch_witness :
    call (.ok { endpoint := "https://sample.test/api/alarms", httpMethod := "GET" })
        (fun _ => .ok { headers := [], statusCode := 200, statusMessage := "OK",
                        body := .obj [("name", .str "foo")] })
      = .ok { headers := [], statusCode := 200, statusMessage := "OK",
              body := .obj [("name", .str "foo")] } ∧
    call (.ok { endpoint := "https://sample.test/api/alarms", httpMethod := "GET" })
        (fun _ => .ok { headers := [], statusCode := 500, statusMessage := "Error",
                        body := .obj [("message", .str "some error")] })
      = .error { message := "Microservice failed (500): some error"
                 code := codeMICROSERVICE_FAILED
                 statusCode := some 500 } := by
  constructor
  · exact (call_status_dispatch _ _ _ _ rfl rfl).1 (by decide)
  · have h := ((call_status_dispatch
      (.ok { endpoint := "https://sample.test/api/alarms", httpMethod := "GET" })
      (fun _ => .ok { headers := [], statusCode := 500, statusMessage := "Error",
                      body := .obj [("message", .str "some error")] })
      _ _ rfl rfl).2 (by decide)).1
    rw [h]
    rfl

/-- C1 counterexample: for the completed response with status 500 and the
non-empty string body `"oops"`, the claim's message rule predicts the fixed
fallback `"No response body"` (a string body is neither an object with a
`message` field nor a non-empty object or array), but `call` raises with the
JSON-stringified body `"oops"` instead: every truthy body is stringified. -/
theorem call_error_message_counterexample :
    call (.ok { endpoint := "https://sample.test/api/alarms", httpMethod := "GET" })
        (fun _ => .ok { headers := [], statusCode := 500,
                        statusMessage := "Internal Server Error", body := .str "oops" })
      = .error { message := "Microservice failed (500): \"oops\""
                 code := codeMICROSERVICE_FAILED
                 statusCode := some 500 } ∧
    "Microservice failed (500): \"oops\"" ≠ "Microservice failed (500): No response body" := by
  exact ⟨rfl, by decide⟩

/-- C2.  For every completed remote exchange, `safeCall` returns the
normalized response unchanged regardless of its status code (in particular
when `statusCode ≥ 400`, where `call` raises instead), and it still raises
when endpoint resolution fails or the transport itself fails before any
response is received. -/
theorem safeCall_spec :
    (∀ (ep : Endpoint) (transport : Endpoint → Except MicroServiceCallError RequestResponse)
       (r : RequestResponse), transport ep = .ok r → safeCall (.ok ep) transport = .ok r) ∧
    (∀ (e : MicroServiceCallError)
       (transport : Endpoint → Except MicroServiceCallError RequestResponse),
       safeCall (.error e) transport = .error e) ∧
    (∀ (ep : Endpoint) (transport : Endpoint → Except MicroServiceCallError RequestResponse)
       (e : MicroServiceCallError),
       transport ep = .error e → safeCall (.ok ep) transport = .error e) ∧
    (∀ (ep : Endpoint) (transport : Endpoint → Except MicroServiceCallError RequestResponse)
       (r : RequestResponse), transport ep = .ok r → 400 ≤ r.statusCode →
       safeCall (.ok ep) transport = .ok r ∧
       call (.ok ep) transport = .error (microserviceFailedError r.statusCode r.body)) := by
  refine ⟨?_, ?_, ?_, ?_⟩
  · intro ep transport r h
    simp [safeCall, h]
  · intro e transport
    simp [safeCall]
  · intro ep transport e h
    simp [safeCall, h]
  · intro ep transport r h hge
    constructor
    · simp [safeCall, h]
    · simp [call, h, callResult, hge]

/-- C2 witness: a completed 503 exchange is returned unchanged by
`safeCall` while `call` raises on it. -/
theorem safeCall_spec_witness :
    safeCall (.ok { endpoint := "https://sample.test/api/alarms", httpMethod := "GET" })
        (fun _ => .ok { headers := [], statusCode := 503,
                        statusMessage := "Service Unavailable", body := .null })
      = .ok { headers := [], statusCode := 503,
              statusMessage := "Service Unavailable", body := .null } ∧
    call (.ok { endpoint := "https://sample.test/api/alarms", httpMethod := "GET" })
        (fun _ => .ok { headers := [], statusCode := 503,
                        statusMessage := "Service Unavailable", body := .null })
      = .error (microserviceFailedError 503 .null) :=
  safeCall_spec.2.2.2
    { endpoint := "https://sample.test/api/alarms", httpMethod := "GET" }
    (fun _ => .ok { headers := [], statusCode := 503,
                    statusMessage := "Service Unavailable", body := .null })
    { headers := [], statusCode := 503,
      statusMessage := "Service Unavailable", body := .null }
    rfl (by decide)

/-! Theorems about the retry classifier -/

/-- C3.  The classifier `shouldRetry` returns `true` for every outcome
without a discernible status code (absent field or JS-falsy `0`); for an
outcome carrying a positive status code it returns `true` exactly when the
status code is at least 500 and the extracted diagnostic message (parsed
out of an error's formatted message, or taken with separator prefix from a
raw response's `body.message`) is not in the fixed exclusion list; in
particular it returns `false` on every status in `[400, 500)` and on a 500
with the excluded message `"Invalid client"`. -/
theorem shouldRetry_spec :
    (∀ o : RetryOutcome, o.statusCodeField = none → shouldRetry o = true) ∧
    (∀ o : RetryOutcome, o.statusCodeField = some 0 → shouldRetry o = true) ∧
    (∀ (o : RetryOutcome) (sc : Nat), o.statusCodeField = some sc → 0 < sc →
       (shouldRetry o = true ↔ 500 ≤ sc ∧
         ∀ m, o.extractedMessage = some m → m ∉ NoRetryErrorMessages)) ∧
    (∀ (o : RetryOutcome) (sc : Nat), o.statusCodeField = some sc → 400 ≤ sc → sc < 500 →
       shouldRetry o = false) ∧
    shouldRetry (.err { message := "socket hang up", code := codeENDPOINT_REQUEST_FAILED })
      = true ∧
    shouldRetry (.err { message := "Microservice failed (500): Database error"
                        code := codeMICROSERVICE_FAILED, statusCode := some 500 }) = true ∧
    shouldRetry (.resp (some 404) .null) = false ∧
    shouldRetry (.err { message := "Microservice failed (500): Invalid client"
                        code := codeMICROSERVICE_FAILED, statusCode := some 500 }) = false := by
  refine ⟨?_, ?_, ?_, ?_, ?_, ?_, ?_, ?_⟩
  · intro o h
    simp only [shouldRetry]
    rw [h]
  · intro o h
    simp only [shouldRetry]
    rw [h]
    simp
  · intro o sc h hpos
    simp only [shouldRetry]
    rw [h]
    have hne : ¬ (sc = 0) := by omega
    simp only [hne, if_false]
    rcases hm : o.extractedMessage with _ | m
    · simp [NoRetryErrorMessages]
    · simp only [Bool.and_eq_true, decide_eq_true_eq, Bool.not_eq_true',
        Option.some.injEq]
      constructor
      · rintro ⟨h5, hc⟩
        refine ⟨h5, ?_⟩
        rintro m' rfl hmem
        have hct : NoRetryErrorMessages.contains m = true := List.elem_iff.mpr hmem
        rw [hct] at hc
        exact Bool.noConfusion hc
      · rintro ⟨h5, hc⟩
        refine ⟨h5, ?_⟩
        rw [Bool.eq_false_iff]
        intro hct
        exact hc m rfl (List.elem_iff.mp hct)
  · intro o sc h h4 h5
    simp only [shouldRetry]
    rw [h]
    have hne : ¬ (sc = 0) := by omega
    have h6 : ¬ (500 ≤ sc) := by omega
    simp [hne, h6]
  · rfl
  · rfl
  · rfl
  · rfl

/-- C3 witness: the spec's four sample classifications, derived from the
general clauses of the classifier theorem. -/
theorem shouldRetry_spec_witness :
    shouldRetry (.resp (some 404) (.obj [("message", .str "Not found")])) = false :=
  shouldRetry_spec.2.2.2.1 _ 404 rfl (by decide) (by decide)

/-! Theorems about the pagination aggregators -/

/-- In strict (non-safe) mode, a terminating `listIterate` run returns the
accumulated concatenation of all fetched page bodies together with the last
page's metadata. -/
theorem listIterate_nonsafe_ok (fetch : Nat → ListResponse) (ps : Nat) :
    ∀ (fuel page : Nat) (items : List JsValue) (r : ListResponse) (n : Nat),
      listIterate fetch false ps page items fuel = some (.ok (r, n)) →
      1 ≤ n ∧
      r.body = items ++ pagesBodies fetch page n ∧
      r.statusCode = (fetch (page + (n - 1))).statusCode ∧
      r.statusMessage = (fetch (page + (n - 1))).statusMessage ∧
      r.headers = (fetch (page + (n - 1))).headers := by
  intro fuel
  induction fuel with
  | zero =>
    intro page items r n h
    simp [listIterate] at h
  | succ fuel ih =>
    intro page items r n h
    simp only [listIterate, Bool.false_eq_true, if_false, false_and] at h
    by_cases hsc : 400 ≤ (fetch page).statusCode
    · simp only [callPage, if_pos hsc] at h
      simp at h
    · simp only [callPage, if_neg hsc] at h
      by_cases hlen : (fetch page).body.length = ps
      · rw [if_pos hlen] at h
        rcases hrec : listIterate fetch false ps (page + 1) (items ++ (fetch page).body) fuel
          with _ | res
        · rw [hrec] at h
          simp at h
        · rw [hrec] at h
          rcases res with e | rn
          · simp at h
          · rcases rn with ⟨r₀, n₀⟩
            simp only [Option.some.injEq, Except.ok.injEq, Prod.mk.injEq] at h
            obtain ⟨rfl, rfl⟩ := h
            obtain ⟨hn₀, hbody, hsc', hsm, hhd⟩ :=
              ih (page + 1) (items ++ (fetch page).body) r₀ n₀ hrec
            have hidx : page + 1 + (n₀ - 1) = page + (n₀ + 1 - 1) := by omega
            refine ⟨by omega, ?_, ?_, ?_, ?_⟩
            · rw [hbody, pagesBodies, List.append_assoc]
            · rw [hsc', hidx]
            · rw [hsm, hidx]
            · rw [hhd, hidx]
      · rw [if_neg hlen] at h
        simp only [Option.some.injEq, Except.ok.injEq, Prod.mk.injEq] at h
        obtain ⟨rfl, rfl⟩ := h
        refine ⟨by omega, ?_, ?_, ?_, ?_⟩
        · simp [pagesBodies]
        · simp
        · simp
        · simp

/-- In strict mode, a terminating total-count list loop returns the
accumulated concatenation of all fetched page bodies together with the last
page's metadata. -/
theorem msListLoop_nonsafe_ok (fetch : Nat → ListResponse) :
    ∀ (fuel page : Nat) (body : List JsValue) (r : ListResponse) (n : Nat),
      msListLoop fetch false page body fuel = some (.ok (r, n)) →
      1 ≤ n ∧
      r.body = body ++ pagesBodies fetch page n ∧
      r.statusCode = (fetch (page + (n - 1))).statusCode ∧
      r.statusMessage = (fetch (page + (n - 1))).statusMessage ∧
      r.headers = (fetch (page + (n - 1))).headers := by
  intro fuel
  induction fuel with
  | zero =>
    intro page body r n h
    simp [msListLoop] at h
  | succ fuel ih =>
    intro page body r n h
    simp only [msListLoop, Bool.false_eq_true, if_false] at h
    by_cases hsc : 400 ≤ (fetch page).statusCode
    · simp only [callPage, if_pos hsc] at h
      simp at h
    · simp only [callPage, if_neg hsc] at h
      by_cases hmore : msListMore (fetch page) (body ++ (fetch page).body) = true
      · rw [if_pos hmore] at h
        rcases hrec : msListLoop fetch false (page + 1) (body ++ (fetch page).body) fuel
          with _ | res
        · rw [hrec] at h
          simp at h
        · rw [hrec] at h
          rcases res with e | rn
          · simp at h
          · rcases rn with ⟨r₀, n₀⟩
            simp only [Option.some.injEq, Except.ok.injEq, Prod.mk.injEq] at h
            obtain ⟨rfl, rfl⟩ := h
            obtain ⟨hn₀, hbody, hsc', hsm, hhd⟩ :=
              ih (page + 1) (body ++ (fetch page).body) r₀ n₀ hrec
            have hidx : page + 1 + (n₀ - 1) = page + (n₀ + 1 - 1) := by omega
            refine ⟨by omega, ?_, ?_, ?_, ?_⟩
            · rw [hbody, pagesBodies, List.append_assoc]
            · rw [hsc', hidx]
            · rw [hsm, hidx]
            · rw [hhd, hidx]
      · rw [if_neg hmore] at h
        simp only [Option.some.injEq, Except.ok.injEq, Prod.mk.injEq] at h
        obtain ⟨rfl, rfl⟩ := h
        refine ⟨by omega, ?_, ?_, ?_, ?_⟩
        · simp [pagesBodies]
        · simp
        · simp
        · simp

/-- A backend returning one item on pages 1, 2 and 3 and an empty page
afterwards (no total-count header). -/
def threePagesBackend : Nat → ListResponse := fun page =>
  if page ≤ 3 then
    { headers := [], statusCode := 200, statusMessage := "OK", body := [.num (page : Int)] }
  else
    { headers := [], statusCode := 200, statusMessage := "OK", body := [] }

/-- A backend whose total-count header reports 3 and which returns one item
per page. -/
def totalThreeBackend : Nat → ListResponse := fun page =>
  { headers := [("x-janis-total", .num 3)], statusCode := 200, statusMessage := "OK",
    body := [.num (page : Int)] }

/-- C4.  For every terminating aggregation in which no page call raises, the
returned response's body is the concatenation of all fetched page bodies in
arrival order and its metadata (status code, status message, headers) is the
last fetched page's — proved for both the short-page strategy (`listIterate`)
and the total-count strategy (`MsCall.list`); with page size 1 against a
backend returning one item on pages 1-3 and an empty page afterwards, the
short-page loop performs 4 calls and returns the 3 items in order, and
against a backend whose total-count header reports 3 the total-count loop
performs 3 calls and returns the 3 items in order. -/
theorem list_concatenates_pages :
    (∀ (fetch : Nat → ListResponse) (ps fuel page : Nat) (items : List JsValue)
       (r : ListResponse) (n : Nat),
       listIterate fetch false ps page items fuel = some (.ok (r, n)) →
       1 ≤ n ∧ r.body = items ++ pagesBodies fetch page n ∧
       r.statusCode = (fetch (page + (n - 1))).statusCode ∧
       r.statusMessage = (fetch (page + (n - 1))).statusMessage ∧
       r.headers = (fetch (page + (n - 1))).headers) ∧
    (∀ (fetch : Nat → ListResponse) (fuel page : Nat) (body : List JsValue)
       (r : ListResponse) (n : Nat),
       msListLoop fetch false page body fuel = some (.ok (r, n)) →
       1 ≤ n ∧ r.body = body ++ pagesBodies fetch page n ∧
       r.statusCode = (fetch (page + (n - 1))).statusCode ∧
       r.statusMessage = (fetch (page + (n - 1))).statusMessage ∧
       r.headers = (fetch (page + (n - 1))).headers) ∧
    list threePagesBackend false 1 10
      = some (.ok ({ headers := [], statusCode := 200, statusMessage := "OK",
                     body := [.num 1, .num 2, .num 3] }, 4)) ∧
    msList totalThreeBackend false 10
      = some (.ok ({ headers := [("x-janis-total", .num 3)], statusCode := 200,
                     statusMessage := "OK", body := [.num 1, .num 2, .num 3] }, 3)) := by
  refine ⟨?_, ?_, rfl, rfl⟩
  · intro fetch ps
    exact listIterate_nonsafe_ok fetch ps
  · intro fetch
    exact msListLoop_nonsafe_ok fetch

/-- C4 witness: the general aggregation clause instantiated on the concrete
three-page backend run (4 calls, bodies `[1, 2, 3]`, page-4 metadata). -/
theorem list_concatenates_pages_witness :
    1 ≤ 4 ∧
    ({ headers := [], statusCode := 200, statusMessage := "OK",
       body := [.num 1, .num 2, .num 3] } : ListResponse).body
      = [] ++ pagesBodies threePagesBackend 1 4 ∧
    ({ headers := [], statusCode := 200, statusMessage := "OK",
       body := [.num 1, .num 2, .num 3] } : ListResponse).statusCode
      = (threePagesBackend (1 + (4 - 1))).statusCode ∧
    ({ headers := [], statusCode := 200, statusMessage := "OK",
       body := [.num 1, .num 2, .num 3] } : ListResponse).statusMessage
      = (threePagesBackend (1 + (4 - 1))).statusMessage ∧
    ({ headers := [], statusCode := 200, statusMessage := "OK",
       body := [.num 1, .num 2, .num 3] } : ListResponse).headers
      = (threePagesBackend (1 + (4 - 1))).headers :=
  list_concatenates_pages.1 threePagesBackend 1 10 1 []
    { headers := [], statusCode := 200, statusMessage := "OK",
      body := [.num 1, .num 2, .num 3] } 4 rfl

/-- In safe mode, when the pages before page `page + j` are all full
success pages and page `page + j` fails with status `≥ 400`, `listIterate`
stops at `j + 1` calls and returns the failing page's response verbatim,
whatever the accumulator held. -/
theorem listIterate_safe_first_failure (fetch : Nat → ListResponse) (ps : Nat) :
    ∀ (j fuel page : Nat) (items : List JsValue),
      j < fuel →
      (∀ i, i < j → (fetch (page + i)).statusCode < 400 ∧ (fetch (page + i)).body.length = ps) →
      400 ≤ (fetch (page + j)).statusCode →
      listIterate fetch true ps page items fuel = some (.ok (fetch (page + j), j + 1)) := by
  intro j
  induction j with
  | zero =>
    intro fuel page items hfuel _ hfail
    obtain ⟨fuel, rfl⟩ : ∃ f, fuel = f + 1 := ⟨fuel - 1, by omega⟩
    rw [Nat.add_zero] at hfail
    simp only [listIterate, if_true]
    rw [if_pos ⟨trivial, hfail⟩]
    simp
  | succ j ih =>
    intro fuel page items hfuel hpre hfail
    obtain ⟨fuel, rfl⟩ : ∃ f, fuel = f + 1 := ⟨fuel - 1, by omega⟩
    have h0 := hpre 0 (by omega)
    rw [Nat.add_zero] at h0
    simp only [listIterate, if_true]
    rw [if_neg (by intro hc; exact absurd hc.2 (by omega))]
    rw [if_pos h0.2]
    have hpre' : ∀ i, i < j →
        (fetch (page + 1 + i)).statusCode < 400 ∧ (fetch (page + 1 + i)).body.length = ps := by
      intro i hi
      have := hpre (i + 1) (by omega)
      rwa [show page + (i + 1) = page + 1 + i by omega] at this
    have hfail' : 400 ≤ (fetch (page + 1 + j)).statusCode := by
      rwa [show page + (j + 1) = page + 1 + j by omega] at hfail
    rw [ih fuel (page + 1) (items ++ (fetch page).body) (by omega) hpre' hfail']
    rw [show page + 1 + j = page + (j + 1) by omega]

/-- A safe-mode backend: a full success page 1 and a failing page 2 with
its own error body. -/
def failAtTwoBackend : Nat → ListResponse := fun page =>
  if page = 1 then
    { headers := [], statusCode := 200, statusMessage := "OK", body := [.str "item-1"] }
  else
    { headers := [("content-type", .str "application/json")], statusCode := 500,
      statusMessage := "Internal Server Error",
      body := [.obj [("message", .str "Database error")]] }

/-- C5.  In safe mode, the moment a page's response has `statusCode ≥ 400`
the aggregation stops and that page's response is returned verbatim — its
status code, headers and its own body, with the previously accumulated items
discarded; on the concrete backend failing at page 2, `safeList` returns
page 2's error response (not the page-1 item) after exactly 2 calls. -/
theorem safeList_returns_failing_page :
    (∀ (fetch : Nat → ListResponse) (ps j fuel page : Nat) (items : List JsValue),
       j < fuel →
       (∀ i, i < j →
         (fetch (page + i)).statusCode < 400 ∧ (fetch (page + i)).body.length = ps) →
       400 ≤ (fetch (page + j)).statusCode →
       listIterate fetch true ps page items fuel = some (.ok (fetch (page + j), j + 1))) ∧
    safeList failAtTwoBackend 1 10
      = some (.ok ({ headers := [("content-type", .str "application/json")], statusCode := 500,
                     statusMessage := "Internal Server Error",
                     body := [.obj [("message", .str "Database error")]] }, 2)) := by
  refine ⟨?_, rfl⟩
  intro fetch ps j fuel page items h1 h2 h3
  exact listIterate_safe_first_failure fetch ps j fuel page items h1 h2 h3

/-- C5 witness: the general bail-out clause instantiated on the concrete
backend failing at page 2 (accumulator `[]`, failure after 2 calls). -/
theorem safeList_returns_failing_page_witness :
    listIterate failAtTwoBackend true 1 1 [] 10
      = some (.ok (failAtTwoBackend (1 + 1), 1 + 1)) :=
  safeList_returns_failing_page.1 failAtTwoBackend 1 1 10 1 [] (by omega)
    (fun i hi => by
      have : i = 0 := by omega
      subst this
      exact ⟨by decide, by decide⟩)
    (by decide)

/-! Theorems about the endpoint resolver caches -/

/-- Complete case analysis of one `Discovery.getEndpoint` step: a cache hit
(no discovery), a failed discovery (cache untouched), or a successful
discovery (descriptor cached). -/
theorem Discovery.getEndpoint_cases (att : Attempt) (cache : DiscoveryCache) :
    (∃ entry, assocFind cache (Discovery.cacheKey att.service att.nspace att.method) = some entry ∧
      Discovery.getEndpoint att cache = (.ok entry, cache, false)) ∨
    (assocFind cache (Discovery.cacheKey att.service att.nspace att.method) = none ∧
      ((∃ e, Discovery.resolveOnce att = .error e ∧
          Discovery.getEndpoint att cache = (.error e, cache, true)) ∨
       (∃ d, Discovery.resolveOnce att = .ok d ∧
          Discovery.getEndpoint att cache =
            (.ok d, (Discovery.cacheKey att.service att.nspace att.method, d) :: cache, true)))) := by
  rcases hl : assocFind cache (Discovery.cacheKey att.service att.nspace att.method) with _ | entry
  · rcases hr : Discovery.resolveOnce att with e | d
    · exact Or.inr ⟨rfl, Or.inl ⟨e, rfl, by simp [Discovery.getEndpoint, hl, hr]⟩⟩
    · exact Or.inr ⟨rfl, Or.inr ⟨d, rfl, by simp [Discovery.getEndpoint, hl, hr]⟩⟩
  · exact Or.inl ⟨entry, rfl, by simp [Discovery.getEndpoint, hl]⟩

/-- Every entry of the Discovery cache after one step was already present
or was produced by a successful complete resolution of that step. -/
theorem Discovery.getEndpoint_mem (att : Attempt) (cache : DiscoveryCache)
    (kv : String × Endpoint) (h : kv ∈ (Discovery.getEndpoint att cache).2.1) :
    kv ∈ cache ∨ (Discovery.resolveOnce att = .ok kv.2 ∧
      kv.1 = Discovery.cacheKey att.service att.nspace att.method) := by
  rcases Discovery.getEndpoint_cases att cache with
    ⟨entry, _, heq⟩ | ⟨_, ⟨e, _, heq⟩ | ⟨d, hr, heq⟩⟩
  · rw [heq] at h
    exact Or.inl h
  · rw [heq] at h
    exact Or.inl h
  · rw [heq] at h
    rcases List.mem_cons.mp h with hkv | hkv
    · subst hkv
      exact Or.inr ⟨hr, rfl⟩
    · exact Or.inl hkv

/-- Every entry of the Discovery cache after a sequence of steps was already
present or was produced by a successful complete resolution of one step. -/
theorem Discovery.runAttempts_mem :
    ∀ (atts : List Attempt) (cache : DiscoveryCache) (kv : String × Endpoint),
      kv ∈ Discovery.runAttempts cache atts →
      kv ∈ cache ∨ ∃ att ∈ atts, Discovery.resolveOnce att = .ok kv.2 ∧
        kv.1 = Discovery.cacheKey att.service att.nspace att.method := by
  intro atts
  induction atts with
  | nil =>
    intro cache kv h
    simp only [Discovery.runAttempts] at h
    exact Or.inl h
  | cons att rest ih =>
    intro cache kv h
    simp only [Discovery.runAttempts] at h
    rcases ih _ kv h with hkv | ⟨att', hmem, hres, hkey⟩
    · rcases Discovery.getEndpoint_mem att cache kv hkv with h1 | h2
      · exact Or.inl h1
      · exact Or.inr ⟨att, List.mem_cons_self att rest, h2.1, h2.2⟩
    · exact Or.inr ⟨att', List.mem_cons_of_mem att hmem, hres, hkey⟩

/-- C6 counterexample: the router-fetcher resolver `_getEndpointData`
(`src/unnamed/part_002` lines 139-147) caches the lookup promise before it
settles, so a failed lookup stays in the cache: after one failed attempt on
an empty cache the cache holds the failure, and a second attempt — even one
whose router oracle would now succeed — returns the cached failure without
contacting the router (third component `false`), contradicting the claim
that the cache never holds an entry produced by a failed lookup and that a
failed resolution is retried on the next call. -/
theorem getEndpointData_caches_failures :
    getEndpointData
        (.error { message := "Endpoint request failed", code := codeENDPOINT_REQUEST_FAILED })
        [] "sample-service" "alarms" "list"
      = (.error { message := "Endpoint request failed", code := codeENDPOINT_REQUEST_FAILED },
         [("sample-service-alarms-list",
           .error { message := "Endpoint request failed", code := codeENDPOINT_REQUEST_FAILED })],
         true) ∧
    getEndpointData (.ok { endpoint := "https://sample.test/api/alarms", httpMethod := "GET" })
        [("sample-service-alarms-list",
          .error { message := "Endpoint request failed", code := codeENDPOINT_REQUEST_FAILED })]
        "sample-service" "alarms" "list"
      = (.error { message := "Endpoint request failed", code := codeENDPOINT_REQUEST_FAILED },
         [("sample-service-alarms-list",
           .error { message := "Endpoint request failed", code := codeENDPOINT_REQUEST_FAILED })],
         false) := by
  exact ⟨rfl, rfl⟩

/-- C6 (amended).  For the awaited resolvers (`Discovery.getEndpoint` and
`EndpointFetcher.get`) the process-wide cache never holds an entry produced
by a failed lookup: a failed resolution leaves the cache unchanged, every
cached entry traces back to a successful complete resolution, and after a
failure the next call performs discovery again.  (The router-fetcher
`_getEndpointData` of `src/unnamed/part_002` does not satisfy this: it
caches the raw lookup promise, failure included.) -/
theorem resolver_cache_only_successes :
    (∀ (att : Attempt) (cache : DiscoveryCache) (e : MicroServiceCallError),
       (Discovery.getEndpoint att cache).1 = .error e →
       (Discovery.getEndpoint att cache).2.1 = cache) ∧
    (∀ (atts : List Attempt) (kv : String × Endpoint),
       kv ∈ Discovery.runAttempts [] atts →
       ∃ att ∈ atts, Discovery.resolveOnce att = .ok kv.2 ∧
         kv.1 = Discovery.cacheKey att.service att.nspace att.method) ∧
    (∀ (att att' : Attempt) (cache : DiscoveryCache) (e : MicroServiceCallError),
       (Discovery.getEndpoint att cache).1 = .error e →
       assocFind cache (Discovery.cacheKey att'.service att'.nspace att'.method) = none →
       (Discovery.getEndpoint att' ((Discovery.getEndpoint att cache).2.1)).2.2 = true) ∧
    (∀ (att : FetchAttempt) (cache : List (String × JsValue)) (e : MicroServiceCallError),
       (EndpointFetcher.get att cache).1 = .error e →
       (EndpointFetcher.get att cache).2.1 = cache) ∧
    (∀ (att : FetchAttempt) (cache : List (String × JsValue)) (kv : String × JsValue),
       kv ∈ (EndpointFetcher.get att cache).2.1 →
       kv ∈ cache ∨ (EndpointFetcher.fetch att = .ok kv.2 ∧
         kv.1 = EndpointFetcher.cacheKey att.service att.nspace att.method)) := by
  have herr : ∀ (att : Attempt) (cache : DiscoveryCache) (e : MicroServiceCallError),
      (Discovery.getEndpoint att cache).1 = .error e →
      (Discovery.getEndpoint att cache).2.1 = cache := by
    intro att cache e h
    rcases Discovery.getEndpoint_cases att cache with
      ⟨entry, _, heq⟩ | ⟨_, ⟨e', _, heq⟩ | ⟨d, _, heq⟩⟩
    · rw [heq] at h
      simp at h
    · rw [heq]
    · rw [heq] at h
      simp at h
  refine ⟨herr, ?_, ?_, ?_, ?_⟩
  · intro atts kv h
    rcases Discovery.runAttempts_mem atts [] kv h with hkv | hex
    · simp at hkv
    · exact hex
  · intro att att' cache e h hl
    rw [herr att cache e h]
    rcases hr : Discovery.resolveOnce att' with e' | d <;>
      simp [Discovery.getEndpoint, hl, hr]
  · intro att cache e h
    rcases hl : assocFind cache (EndpointFetcher.cacheKey att.service att.nspace att.method)
      with _ | v
    · rcases hf : EndpointFetcher.fetch att with e' | data
      · simp [EndpointFetcher.get, hl, hf]
      · simp [EndpointFetcher.get, hl, hf] at h
    · by_cases htr : truthy v = true
      · simp [EndpointFetcher.get, hl, htr]
      · rcases hf : EndpointFetcher.fetch att with e' | data
        · simp [EndpointFetcher.get, hl, htr, hf]
        · simp [EndpointFetcher.get, hl, htr, hf] at h
  · intro att cache kv h
    rcases hl : assocFind cache (EndpointFetcher.cacheKey att.service att.nspace att.method)
      with _ | v
    · rcases hf : EndpointFetcher.fetch att with e' | data
      · simp [EndpointFetcher.get, hl, hf] at h
        exact Or.inl h
      · simp [EndpointFetcher.get, hl, hf] at h
        rcases h with rfl | hkv
        · exact Or.inr ⟨rfl, rfl⟩
        · exact Or.inl hkv
    · by_cases htr : truthy v = true
      · simp [EndpointFetcher.get, hl, htr] at h
        exact Or.inl h
      · rcases hf : EndpointFetcher.fetch att with e' | data
        · simp [EndpointFetcher.get, hl, htr, hf] at h
          exact Or.inl h
        · simp [EndpointFetcher.get, hl, htr, hf] at h
          rcases h with rfl | hkv
          · exact Or.inr ⟨rfl, rfl⟩
          · exact Or.inl hkv

/-- C6 witness: a concrete failed discovery attempt on the empty cache
leaves the cache empty. -/
theorem resolver_cache_only_successes_witness :
    (Discovery.getEndpoint
      { invoke := .error { message := "Lambda timeout", code := codeENDPOINT_REQUEST_FAILED }
        service := "sample-service", nspace := "alarms", method := "list" } []).2.1 = [] :=
  resolver_cache_only_successes.1
    { invoke := .error { message := "Lambda timeout", code := codeENDPOINT_REQUEST_FAILED }
      service := "sample-service", nspace := "alarms", method := "list" } []
    { message := "Lambda timeout", code := codeENDPOINT_REQUEST_FAILED } rfl

/-- C7.  Invoking `call` twice for the same (service, namespace, method)
triple, starting from a cache not holding its key and with the first
discovery resolution succeeding, performs exactly one discovery invocation
(the second call is a cache hit) and exactly two remote invocations, and
the final cache holds only the endpoint entry on top of the initial cache
(the normalized response is never cached). -/
theorem call_twice_cache_hit
    (att₁ att₂ : Attempt)
    (tr₁ tr₂ : Endpoint → Except MicroServiceCallError RequestResponse)
    (cache : DiscoveryCache) (d : Endpoint)
    (hsvc : att₂.service = att₁.service) (hns : att₂.nspace = att₁.nspace)
    (hmth : att₂.method = att₁.method)
    (hmiss : assocFind cache (Discovery.cacheKey att₁.service att₁.nspace att₁.method) = none)
    (hres : Discovery.resolveOnce att₁ = .ok d) :
    (callTwice att₁ att₂ tr₁ tr₂ cache).discoveryInvocations = 1 ∧
    (callTwice att₁ att₂ tr₁ tr₂ cache).remoteInvocations = 2 ∧
    (callTwice att₁ att₂ tr₁ tr₂ cache).finalCache =
      (Discovery.cacheKey att₁.service att₁.nspace att₁.method, d) :: cache := by
  have hge₁ : Discovery.getEndpoint att₁ cache =
      (.ok d, (Discovery.cacheKey att₁.service att₁.nspace att₁.method, d) :: cache, true) := by
    simp [Discovery.getEndpoint, hmiss, hres]
  have hhit : assocFind
      ((Discovery.cacheKey att₁.service att₁.nspace att₁.method, d) :: cache)
      (Discovery.cacheKey att₂.service att₂.nspace att₂.method) = some d := by
    rw [hsvc, hns, hmth]
    simp [assocFind]
  have hge₂ : Discovery.getEndpoint att₂
      ((Discovery.cacheKey att₁.service att₁.nspace att₁.method, d) :: cache) =
      (.ok d, (Discovery.cacheKey att₁.service att₁.nspace att₁.method, d) :: cache, false) := by
    simp [Discovery.getEndpoint, hhit]
  rcases h1 : tr₁ d with e1 | r1 <;> rcases h2 : tr₂ d with e2 | r2 <;>
    simp [callTwice, callCounted, hge₁, hge₂, h1, h2]

/-- C7 witness: two identical calls of a concrete triple from the empty
cache, with a succeeding discovery oracle, perform one discovery and two
remote invocations and cache only the endpoint descriptor. -/
theorem call_twice_cache_hit_witness :
    (callTwice
      { invoke := .ok { payload := { baseUrl := some "https://sample.test"
                                     path := some "/api/alarms", method := some "GET"
                                     errorMessage := none }
                        functionError := none }
        service := "sample-service", nspace := "alarms", method := "list" }
      { invoke := .ok { payload := { baseUrl := some "https://sample.test"
                                     path := some "/api/alarms", method := some "GET"
                                     errorMessage := none }
                        functionError := none }
        service := "sample-service", nspace := "alarms", method := "list" }
      (fun _ => .ok { headers := [], statusCode := 200, statusMessage := "OK", body := .null })
      (fun _ => .ok { headers := [], statusCode := 200, statusMessage := "OK", body := .null })
      []).discoveryInvocations = 1 ∧
    (callTwice
      { invoke := .ok { payload := { baseUrl := some "https://sample.test"
                                     path := some "/api/alarms", method := some "GET"
                                     errorMessage := none }
                        functionError := none }
        service := "sample-service", nspace := "alarms", method := "list" }
      { invoke := .ok { payload := { baseUrl := some "https://sample.test"
                                     path := some "/api/alarms", method := some "GET"
                                     errorMessage := none }
                        functionError := none }
        service := "sample-service", nspace := "alarms", method := "list" }
      (fun _ => .ok { headers := [], statusCode := 200, statusMessage := "OK", body := .null })
      (fun _ => .ok { headers := [], statusCode := 200, statusMessage := "OK", body := .null })
      []).remoteInvocations = 2 ∧
    (callTwice
      { invoke := .ok { payload := { baseUrl := some "https://sample.test"
                                     path := some "/api/alarms", method := some "GET"
                                     errorMessage := none }
                        functionError := none }
        service := "sample-service", nspace := "alarms", method := "list" }
      { invoke := .ok { payload := { baseUrl := some "https://sample.test"
                                     path := some "/api/alarms", method := some "GET"
                                     errorMessage := none }
                        functionError := none }
        service := "sample-service", nspace := "alarms", method := "list" }
      (fun _ => .ok { headers := [], statusCode := 200, statusMessage := "OK", body := .null })
      (fun _ => .ok { headers := [], statusCode := 200, statusMessage := "OK", body := .null })
      []).finalCache =
      [("sample-service.alarms.list",
        { endpoint := "https://sample.test/api/alarms", httpMethod := "GET" })] :=
  call_twice_cache_hit _ _ _ _ []
    { endpoint := "https://sample.test/api/alarms", httpMethod := "GET" }
    rfl rfl rfl rfl rfl

/-! Theorems about path-parameter substitution -/

/-- Replacing a pattern that does not occur in the string leaves it
unchanged. -/
theorem listReplaceFirst_of_no_occurrence (pat rep : List Char) :
    ∀ s : List Char, ¬ pat <:+: s → listReplaceFirst pat rep s = s := by
  intro s
  induction s with
  | nil =>
    intro h
    rw [listReplaceFirst]
    rw [if_neg]
    intro hp
    exact h ((List.isPrefixOf_iff_prefix.mp hp).isInfix
      )
  | cons c rest ih =>
    intro h
    rw [listReplaceFirst]
    rw [if_neg]
    · rw [ih (fun hi => h (List.infix_cons hi))]
    · intro hp
      exact h ((List.isPrefixOf_iff_prefix.mp hp).isInfix)

/-- C8.  Each key of `pathParameters` replaces its `{key}` placeholder in
the resolved path with the string-coerced value, unmatched placeholders are
left as-is without any error (substituting parameters none of whose
placeholders occur leaves the path unchanged), and the alarm example
resolves to `/alarms/foo/state/ok` — as the Discovery-based
`_getUrlWithEndpointParameters` computes it.  The copies in
`src/lib/microservice-call.js` replace on the original endpoint instead of
the reduce accumulator, so the same example keeps the first placeholder
unsubstituted: the claim (and the repository's own tests) hold for the
accumulating version and are violated by the legacy one. -/
theorem path_substitution_spec :
    getUrlWithEndpointParameters "/alarms/\x7balarmName\x7d/state/\x7balarmState\x7d"
        [("alarmName", .str "foo"), ("alarmState", .str "ok")] = "/alarms/foo/state/ok" ∧
    (∀ (endpoint : String) (params : List (String × JsValue)),
       (∀ kv ∈ params, ¬ ("\x7b" ++ kv.1 ++ "\x7d").data <:+: endpoint.data) →
       getUrlWithEndpointParameters endpoint params = endpoint) ∧
    getUrlWithEndpointParametersLegacy "/alarms/\x7balarmName\x7d/state/\x7balarmState\x7d"
        [("alarmName", .str "foo"), ("alarmState", .str "ok")]
      = "/alarms/\x7balarmName\x7d/state/ok" ∧
    "/alarms/\x7balarmName\x7d/state/ok" ≠ "/alarms/foo/state/ok" := by
  refine ⟨rfl, ?_, rfl, by decide⟩
  intro endpoint params h
  induction params with
  | nil => rfl
  | cons kv rest ih =>
    have hstep : replaceFirst endpoint ("\x7b" ++ kv.1 ++ "\x7d") (jsTemplateString kv.2)
        = endpoint := by
      have hni := h kv (List.mem_cons_self kv rest)
      unfold replaceFirst
      rw [listReplaceFirst_of_no_occurrence _ _ _ hni]
    show List.foldl _ _ (kv :: rest) = endpoint
    rw [List.foldl_cons, hstep]
    exact ih (fun kv' hkv' => h kv' (List.mem_cons_of_mem kv hkv'))

/-- C8 witness: the no-placeholder clause instantiated concretely — a path
without the parameter's placeholder is returned unchanged. -/
theorem path_substitution_spec_witness :
    getUrlWithEndpointParameters "/session/validate" [("alarmName", .str "foo")]
      = "/session/validate" :=
  path_substitution_spec.2.1 "/session/validate" [("alarmName", .str "foo")]
    (by
      intro kv hkv
      simp only [List.mem_singleton] at hkv
      subst hkv
      decide)

/-! Theorems about the resolver cache keys -/

/-- Appending around a separator character is injective when neither prefix
contains the separator. -/
theorem append_sep_inj (sep : Char) :
    ∀ (a c b d : List Char), sep ∉ a → sep ∉ c →
      a ++ sep :: b = c ++ sep :: d → a = c ∧ b = d := by
  intro a
  induction a with
  | nil =>
    intro c b d _ hc h
    cases c with
    | nil =>
      simp only [List.nil_append, List.cons.injEq] at h
      exact ⟨rfl, h.2⟩
    | cons y c' =>
      simp only [List.nil_append, List.cons_append, List.cons.injEq] at h
      exact absurd (by rw [h.1]; exact List.mem_cons_self y c') hc
  | cons x a' ih =>
    intro c b d ha hc h
    cases c with
    | nil =>
      simp only [List.cons_append, List.nil_append, List.cons.injEq] at h
      exact absurd (by rw [← h.1]; exact List.mem_cons_self x a') ha
    | cons y c' =>
      simp only [List.cons_append, List.cons.injEq] at h
      obtain ⟨rfl, h2⟩ := h
      obtain ⟨h3, h4⟩ := ih c' b d (fun hm => ha (List.mem_cons_of_mem _ hm))
        (fun hm => hc (List.mem_cons_of_mem _ hm)) h2
      exact ⟨by rw [h3], h4⟩

/-- Unfolding of string append to list append on the underlying data. -/
theorem string_data_append (a b : String) : (a ++ b).data = a.data ++ b.data := rfl

/-- Strings with equal character data are equal. -/
theorem string_data_inj {a b : String} (h : a.data = b.data) : a = b := by
  cases a
  cases b
  cases h
  rfl

/-- C9.  Both resolver cache keys are built from the three identifiers
order-sensitively and case-sensitively around a fixed one-character
separator (`-` for `EndpointFetcher`, `.` for `Discovery`); whenever the
identifiers do not contain the separator, equal keys force equal
components, so distinct (service, namespace, method) triples never share a
cache entry. -/
theorem cache_key_injective :
    (∀ s₁ n₁ m₁ s₂ n₂ m₂ : String,
       '-' ∉ s₁.data → '-' ∉ n₁.data → '-' ∉ m₁.data →
       '-' ∉ s₂.data → '-' ∉ n₂.data → '-' ∉ m₂.data →
       EndpointFetcher.cacheKey s₁ n₁ m₁ = EndpointFetcher.cacheKey s₂ n₂ m₂ →
       s₁ = s₂ ∧ n₁ = n₂ ∧ m₁ = m₂) ∧
    (∀ s₁ n₁ m₁ s₂ n₂ m₂ : String,
       '.' ∉ s₁.data → '.' ∉ n₁.data → '.' ∉ m₁.data →
       '.' ∉ s₂.data → '.' ∉ n₂.data → '.' ∉ m₂.data →
       Discovery.cacheKey s₁ n₁ m₁ = Discovery.cacheKey s₂ n₂ m₂ →
       s₁ = s₂ ∧ n₁ = n₂ ∧ m₁ = m₂) := by
  constructor
  · intro s₁ n₁ m₁ s₂ n₂ m₂ h1 h2 h3 h4 h5 h6 h
    have hd : s₁.data ++ '-' :: (n₁.data ++ '-' :: m₁.data)
        = s₂.data ++ '-' :: (n₂.data ++ '-' :: m₂.data) := by
      have hc := congrArg String.data h
      simpa [EndpointFetcher.cacheKey, string_data_append, List.append_assoc] using hc
    obtain ⟨hs, hrest⟩ := append_sep_inj '-' s₁.data s₂.data _ _ h1 h4 hd
    obtain ⟨hn, hm⟩ := append_sep_inj '-' n₁.data n₂.data _ _ h2 h5 hrest
    exact ⟨string_data_inj hs, string_data_inj hn, string_data_inj hm⟩
  · intro s₁ n₁ m₁ s₂ n₂ m₂ h1 h2 h3 h4 h5 h6 h
    have hd : s₁.data ++ '.' :: (n₁.data ++ '.' :: m₁.data)
        = s₂.data ++ '.' :: (n₂.data ++ '.' :: m₂.data) := by
      have hc := congrArg String.data h
      simpa [Discovery.cacheKey, string_data_append, List.append_assoc] using hc
    obtain ⟨hs, hrest⟩ := append_sep_inj '.' s₁.data s₂.data _ _ h1 h4 hd
    obtain ⟨hn, hm⟩ := append_sep_inj '.' n₁.data n₂.data _ _ h2 h5 hrest
    exact ⟨string_data_inj hs, string_data_inj hn, string_data_inj hm⟩

/-- C9 witness: the Discovery clause instantiated on separator-free
identifiers whose keys coincide. -/
theorem cache_key_injective_witness :
    ("sample" : String) = "sample" ∧ ("alarms" : String) = "alarms" ∧
    ("list" : String) = "list" :=
  cache_key_injective.2 "sample" "alarms" "list" "sample" "alarms" "list"
    (by decide) (by decide) (by decide) (by decide) (by decide) (by decide) rfl

/-! Theorems about verb-based request-data placement -/

/-- C10.  For every verb whose upper-casing is in neither `{GET, DELETE}`
nor `{POST, PUT, PATCH}` (e.g. `OPTIONS` or `HEAD` returned by discovery),
the request is built with the caller's request data placed neither in the
query string nor in the request body — the data is silently dropped — and
the request is still issued to the transport. -/
theorem unknown_verb_drops_request_data
    (httpMethod : String) (requestData : JsValue)
    (h₁ : ["GET", "DELETE"].contains (jsToUpperCase httpMethod) = false)
    (h₂ : ["POST", "PUT", "PATCH"].contains (jsToUpperCase httpMethod) = false) :
    prepareData httpMethod requestData = (none, none) ∧
    ∀ (transport : AxiosRequest → RequestResponse) (apiEndpoint : String)
      (endpointParameters : List (String × JsValue)),
      makeRequest transport apiEndpoint httpMethod requestData endpointParameters =
        transport { url := getUrlWithEndpointParameters apiEndpoint endpointParameters
                    params := none
                    data := none
                    method := httpMethod } := by
  have hp : prepareData httpMethod requestData = (none, none) := by
    rw [Bool.eq_false_iff] at h₁ h₂
    have hg : jsToUpperCase httpMethod ∉ ["GET", "DELETE"] := by
      intro hm
      exact h₁ (List.elem_iff.mpr hm)
    have hb : jsToUpperCase httpMethod ∉ ["POST", "PUT", "PATCH"] := by
      intro hm
      exact h₂ (List.elem_iff.mpr hm)
    simp only [List.mem_cons, List.not_mem_nil, or_false, not_or] at hg hb
    simp [prepareData, hg.1, hg.2, hb.1, hb.2.1, hb.2.2]
  refine ⟨hp, ?_⟩
  intro transport apiEndpoint endpointParameters
  unfold makeRequest makeRequestConfig
  rw [hp]

/-- C10 witness: an `OPTIONS` endpoint descriptor sends the request with no
query and no body. -/
theorem unknown_verb_drops_request_data_witness :
    prepareData "OPTIONS" (.obj [("foo", .str "bar")]) = (none, none) ∧
    ∀ (transport : AxiosRequest → RequestResponse) (apiEndpoint : String)
      (endpointParameters : List (String × JsValue)),
      makeRequest transport apiEndpoint "OPTIONS" (.obj [("foo", .str "bar")])
          endpointParameters =
        transport { url := getUrlWithEndpointParameters apiEndpoint endpointParameters
                    params := none
                    data := none
                    method := "OPTIONS" } :=
  unknown_verb_drops_request_data "OPTIONS" (.obj [("foo", .str "bar")]) rfl rfl

end MicroserviceCall
